import Mathlib

/-!
Shallow embedding of the news-bot pipeline in src/main.py.

External collaborators (the search provider, the generative-language
service, the messaging provider, the environment) are modelled as oracle
functions passed in as parameters; exceptions raised by a provider are
modelled as explicit events or as values in an error monad, following the
contracts in the spec.  The functions of the module (search_news,
generate_summary, send_line_push, main, and the module-level startup
check) are translated statement by statement.
-/

/-- A search hit from the external search provider: the three fields the
code reads with r.get (title, body, url); missing keys default to "". -/
structure SearchResult where
  title : String
  body : String
  url : String
deriving DecidableEq

/-- One pull from the lazy result stream of one query: either the provider
yields a record, or that pull raises an exception. -/
inductive FetchEvent where
  | item : SearchResult → FetchEvent
  | raise : FetchEvent
deriving DecidableEq

/-- pat matches at the very start of s (on character lists). -/
def matchesAt : List Char → List Char → Bool
  | [], _ => true
  | _ :: _, [] => false
  | p :: ps, c :: cs => p == c && matchesAt ps cs

/-- pat occurs somewhere inside s, on character lists. -/
def containsSub (pat : List Char) : List Char → Bool
  | [] => matchesAt pat []
  | c :: cs => matchesAt pat (c :: cs) || containsSub pat cs

/-- Python `pat in s` on strings: case-sensitive substring containment. -/
def strContains (s pat : String) : Bool := containsSub pat.data s.data

/-- The fixed query list built inside search_news (main.py lines 64-68). -/
def keywords : List String :=
  ["Major International Geopolitics -celebrity -gossip -sport -movie",
   "Global Economic Impact -stock -crypto",
   "Scientific Research Breakthroughs AI Space -movie -fiction"]

/-- The fixed title blocklist (main.py line 86). -/
def block_list : List String :=
  ["Kardashian", "Taylor Swift", "Netflix", "Review", "Box Office"]

/-- The filter test of main.py line 87: some blocklisted word occurs in the
title. -/
def blockedTitle (title : String) : Bool :=
  block_list.any (fun bad => strContains title bad)

/-- The formatted NewsItem block appended at main.py line 91. -/
def formatItem (query : String) (r : SearchResult) : String :=
  "類別: " ++ query ++ "\n標題: " ++ r.title ++ "\n摘要: " ++ r.body ++
    "\n連結: " ++ r.url

/-- The inner for-loop over one query stream (main.py lines 77-92).
Returns the blocks accepted for this query, or none when a pull of the
generator raised.  The count check runs after each pull, as in the Python
for-loop: reaching the cap still pulls one more event before breaking, and
a raise on that pull aborts; events after the break are never pulled. -/
def runQuery (query : String) (maxR : Nat) :
    List FetchEvent → Nat → Option (List String)
  | [], _ => some []
  | FetchEvent.raise :: _, _ => none
  | FetchEvent.item r :: rest, count =>
    if maxR ≤ count then some []
    else if blockedTitle r.title then runQuery query maxR rest count
    else if !r.title.isEmpty && !r.url.isEmpty then
      Option.map (fun l => formatItem query r :: l)
        (runQuery query maxR rest (count + 1))
    else runQuery query maxR rest count

/-- The outer loop of search_news over the query list: flat ordered
concatenation of per-query acceptances; none as soon as any pull raised. -/
def searchGo (provider : String → List FetchEvent) (maxR : Nat) :
    List String → Option (List String)
  | [] => some []
  | q :: qs =>
    match runQuery q maxR (provider q) 0 with
    | none => none
    | some items => Option.map (fun l => items ++ l) (searchGo provider maxR qs)

/-- search_news (main.py lines 54-99): runs all queries; the except clause
turns any provider exception into an empty result list, discarding items
accepted before the exception.  maxR is max_results_per_keyword
(3 at the call site in main). -/
def search_news (provider : String → List FetchEvent) (maxR : Nat) :
    List String :=
  (searchGo provider maxR keywords).getD []

example : search_news (fun _ => [FetchEvent.item ⟨"A", "B", "u"⟩]) 3 =
    [formatItem "Major International Geopolitics -celebrity -gossip -sport -movie" ⟨"A", "B", "u"⟩,
     formatItem "Global Economic Impact -stock -crypto" ⟨"A", "B", "u"⟩,
     formatItem "Scientific Research Breakthroughs AI Space -movie -fiction" ⟨"A", "B", "u"⟩] := by
  decide

example : search_news (fun _ => [FetchEvent.item ⟨"Taylor Swift tours", "B", "u"⟩]) 3 = [] := by
  decide

example : search_news (fun q =>
    if q = "Global Economic Impact -stock -crypto" then [FetchEvent.raise]
    else [FetchEvent.item ⟨"A", "B", "u"⟩]) 3 = [] := by
  decide

/-- Every block accepted from one query stream is the formatting of some
yielded result whose title passes the blocklist and whose title and url are
nonempty. -/
theorem runQuery_mem_sound (q : String) (maxR : Nat) (evs : List FetchEvent) :
    ∀ (c : Nat) (items : List String), runQuery q maxR evs c = some items →
    ∀ b ∈ items, ∃ r : SearchResult, b = formatItem q r ∧
      blockedTitle r.title = false ∧ r.title.isEmpty = false ∧
      r.url.isEmpty = false := by
  induction evs with
  | nil =>
    intro c items h b hb
    simp only [runQuery, Option.some.injEq] at h
    subst h
    simp at hb
  | cons e rest ih =>
    intro c items h b hb
    cases e with
    | raise => simp [runQuery] at h
    | item r =>
      simp only [runQuery] at h
      split at h
      · cases h
        simp at hb
      · split at h
        · exact ih c items h b hb
        · rename_i hbl
          simp only [Bool.not_eq_true] at hbl
          split at h
          · rename_i hok
            simp only [Bool.and_eq_true, Bool.not_eq_true'] at hok
            cases hrec : runQuery q maxR rest (c + 1) with
            | none => rw [hrec] at h; cases h
            | some l =>
              rw [hrec] at h
              simp only [Option.map_some', Option.some.injEq] at h
              subst h
              rcases List.mem_cons.mp hb with hb1 | hb2
              · exact ⟨r, hb1, hbl, hok.1, hok.2⟩
              · exact ih (c + 1) l hrec b hb2
          · exact ih c items h b hb

/-- Every block of the flat result list comes from some query of the list
and from a result that passed the filters. -/
theorem searchGo_mem_sound (provider : String → List FetchEvent)
    (maxR : Nat) (qs : List String) :
    ∀ (l : List String), searchGo provider maxR qs = some l →
    ∀ b ∈ l, ∃ q ∈ qs, ∃ r : SearchResult, b = formatItem q r ∧
      blockedTitle r.title = false ∧ r.title.isEmpty = false ∧
      r.url.isEmpty = false := by
  induction qs with
  | nil =>
    intro l h b hb
    simp only [searchGo, Option.some.injEq] at h
    subst h
    simp at hb
  | cons q qs ih =>
    intro l h b hb
    simp only [searchGo] at h
    cases hq : runQuery q maxR (provider q) 0 with
    | none => rw [hq] at h; cases h
    | some items =>
      rw [hq] at h
      cases hrest : searchGo provider maxR qs with
      | none => rw [hrest] at h; cases h
      | some l2 =>
        rw [hrest] at h
        simp only [Option.map_some', Option.some.injEq] at h
        subst h
        rcases List.mem_append.mp hb with hb1 | hb2
        · rcases runQuery_mem_sound q maxR (provider q) 0 items hq b hb1 with
            ⟨r, hr⟩
          exact ⟨q, List.mem_cons_self q qs, r, hr⟩
        · rcases ih l2 hrest b hb2 with ⟨q2, hq2, r, hr⟩
          exact ⟨q2, List.mem_cons_of_mem q hq2, r, hr⟩

/-- The number of blocks accepted from one query stream, with the counter
already at c, is at most maxR - c. -/
theorem runQuery_length_le (q : String) (maxR : Nat) (evs : List FetchEvent) :
    ∀ (c : Nat) (items : List String), runQuery q maxR evs c = some items →
    items.length ≤ maxR - c := by
  induction evs with
  | nil =>
    intro c items h
    simp only [runQuery, Option.some.injEq] at h
    subst h
    simp
  | cons e rest ih =>
    intro c items h
    cases e with
    | raise => simp [runQuery] at h
    | item r =>
      simp only [runQuery] at h
      split at h
      · cases h
        simp
      · rename_i hc
        split at h
        · exact ih c items h
        · split at h
          · cases hrec : runQuery q maxR rest (c + 1) with
            | none => rw [hrec] at h; cases h
            | some l =>
              rw [hrec] at h
              simp only [Option.map_some', Option.some.injEq] at h
              subst h
              have hl := ih (c + 1) l hrec
              simp only [List.length_cons]
              omega
          · exact ih c items h

/-- The flat result list is bounded by (number of queries) * maxR. -/
theorem searchGo_length_le (provider : String → List FetchEvent)
    (maxR : Nat) (qs : List String) :
    ∀ (l : List String), searchGo provider maxR qs = some l →
    l.length ≤ qs.length * maxR := by
  induction qs with
  | nil =>
    intro l h
    simp only [searchGo, Option.some.injEq] at h
    subst h
    simp
  | cons q qs ih =>
    intro l h
    simp only [searchGo] at h
    cases hq : runQuery q maxR (provider q) 0 with
    | none => rw [hq] at h; cases h
    | some items =>
      rw [hq] at h
      cases hrest : searchGo provider maxR qs with
      | none => rw [hrest] at h; cases h
      | some l2 =>
        rw [hrest] at h
        simp only [Option.map_some', Option.some.injEq] at h
        subst h
        have h1 : items.length ≤ maxR := by
          have := runQuery_length_le q maxR (provider q) 0 items hq
          omega
        have h2 := ih l2 hrest
        simp only [List.length_append, List.length_cons]
        calc items.length + l2.length ≤ maxR + qs.length * maxR := by omega
      _ = (qs.length + 1) * maxR := by ring

/-- If any query stream of the list raises during consumption, the whole
outer loop yields none. -/
theorem searchGo_raise_none (provider : String → List FetchEvent)
    (maxR : Nat) (qs : List String)
    (h : ∃ q ∈ qs, runQuery q maxR (provider q) 0 = none) :
    searchGo provider maxR qs = none := by
  induction qs with
  | nil => rcases h with ⟨q, hq, _⟩; simp at hq
  | cons q0 qs ih =>
    rcases h with ⟨q, hq, hnone⟩
    rcases List.mem_cons.mp hq with rfl | htail
    · simp only [searchGo, hnone]
    · simp only [searchGo]
      cases hq0 : runQuery q0 maxR (provider q0) 0 with
      | none => rfl
      | some items =>
        rw [ih ⟨q, htail, hnone⟩]
        rfl

/-- A provider whose every query stream yields one clean result. -/
def provAllGood : String → List FetchEvent :=
  fun _ => [FetchEvent.item ⟨"A", "B", "u"⟩]

/-- A provider whose every query stream yields five clean results. -/
def provMany : String → List FetchEvent :=
  fun _ => List.replicate 5 (FetchEvent.item ⟨"A", "B", "u"⟩)

/-- A provider that yields a clean result for the first and third query but
raises on the second. -/
def provRaiseLate : String → List FetchEvent :=
  fun q =>
    if q = "Global Economic Impact -stock -crypto" then [FetchEvent.raise]
    else [FetchEvent.item ⟨"A", "B", "u"⟩]

/-- C1: every NewsItem block in the list returned by search_news is the
formatting of a yielded result whose title contains no blocklisted
substring (case-sensitive), whatever its body or url; so a result whose
title matches the blocklist is excluded and no blocklisted title appears
in any returned block. -/
theorem search_news_excludes_blocked (provider : String → List FetchEvent)
    (maxR : Nat) (b : String) (hb : b ∈ search_news provider maxR) :
    ∃ q ∈ keywords, ∃ r : SearchResult, b = formatItem q r ∧
      blockedTitle r.title = false ∧ r.title.isEmpty = false ∧
      r.url.isEmpty = false := by
  unfold search_news at hb
  cases hgo : searchGo provider maxR keywords with
  | none => rw [hgo] at hb; simp at hb
  | some l =>
    rw [hgo] at hb
    exact searchGo_mem_sound provider maxR keywords l hgo b (by simpa using hb)

/-- Witness for C1 on a concrete provider and a concrete returned block. -/
theorem search_news_excludes_blocked_witness :
    ∃ q ∈ keywords, ∃ r : SearchResult,
      formatItem "Global Economic Impact -stock -crypto" ⟨"A", "B", "u"⟩ =
        formatItem q r ∧
      blockedTitle r.title = false ∧ r.title.isEmpty = false ∧
      r.url.isEmpty = false :=
  search_news_excludes_blocked provAllGood 3
    (formatItem "Global Economic Impact -stock -crypto" ⟨"A", "B", "u"⟩)
    (by decide)

/-- C2: no single query ever contributes more than maxR blocks, and the
whole returned list is bounded by (number of queries) * maxR. -/
theorem search_news_per_query_cap (provider : String → List FetchEvent)
    (maxR : Nat) :
    (∀ (q : String) (items : List String),
      runQuery q maxR (provider q) 0 = some items → items.length ≤ maxR) ∧
    (search_news provider maxR).length ≤ keywords.length * maxR := by
  constructor
  · intro q items h
    have := runQuery_length_le q maxR (provider q) 0 items h
    omega
  · unfold search_news
    cases hgo : searchGo provider maxR keywords with
    | none => simp
    | some l =>
      have := searchGo_length_le provider maxR keywords l hgo
      simpa using this

/-- Witness for C2: with five clean results on offer and a cap of 1, one
query contributes one block and the whole list holds three. -/
theorem search_news_per_query_cap_witness :
    [formatItem "Global Economic Impact -stock -crypto" ⟨"A", "B", "u"⟩].length ≤ 1 ∧
    (search_news provMany 1).length ≤ keywords.length * 1 :=
  ⟨(search_news_per_query_cap provMany 1).1
      "Global Economic Impact -stock -crypto"
      [formatItem "Global Economic Impact -stock -crypto" ⟨"A", "B", "u"⟩]
      (by decide),
   (search_news_per_query_cap provMany 1).2⟩

/-- C3: if the provider raises during the consumption of any query stream,
search_news returns the empty list, even when earlier queries had already
contributed accepted items. -/
theorem search_news_raise_returns_empty (provider : String → List FetchEvent)
    (maxR : Nat)
    (h : ∃ q ∈ keywords, runQuery q maxR (provider q) 0 = none) :
    search_news provider maxR = [] := by
  unfold search_news
  rw [searchGo_raise_none provider maxR keywords h]
  rfl

/-- Witness for C3: the first query accepts an item, the second raises; the
result is empty, not the partial list. -/
theorem search_news_raise_returns_empty_witness :
    search_news provRaiseLate 3 = [] :=
  search_news_raise_returns_empty provRaiseLate 3
    ⟨"Global Economic Impact -stock -crypto", by decide, by decide⟩

/-- The ordered candidate model list of generate_summary (main.py 129). -/
def candidate_models : List String :=
  ["gemini-1.5-pro-002", "gemini-flash-latest"]

/-- The prompt built by generate_summary (main.py lines 111-124). -/
def buildPrompt (date_str : String) (news_list : List String) : String :=
  "今天是 " ++ date_str ++ "。\n" ++
  "你現在是一位「專注於硬派國際局勢與前沿科學研究」的資深分析師。\n" ++
  "請根據以下搜集到的資料，整理出一份「高含金量」的日報。\n\n" ++
  "⛔ 嚴格過濾原則：\n" ++
  "1. 絕對不要包含娛樂、明星八卦、體育賽事、或是純粹的犯罪社會新聞。\n" ++
  "2. 如果資料中都是垃圾新聞，請直接回答「今日無重大地緣政治或科學新聞」。\n\n" ++
  "✅ 撰寫要求：\n" ++
  "1. 請挑選 5 則最具影響力的「地緣政治變動」或「重大科學發現」。\n" ++
  "2. 語氣要專業、客觀、精煉，像是在寫給 CEO 或研究員看的簡報。\n" ++
  "3. 格式：【領域標籤】標題 (換行) 深度摘要 (換行) 🔗 連結。\n" ++
  "4. 結尾請給一句關於「洞察世界」的專業短語。\n\n" ++
  "原始新聞資料：\n" ++ String.intercalate "\n---\n" news_list

/-- The for-loop over candidate models (main.py 131-148): the generation
oracle gen maps a model name and a prompt to some text on success or none
when the call raised; the first success is returned, a failure advances. -/
def tryModels (gen : String → String → Option String) (prompt : String) :
    List String → Option String
  | [] => none
  | m :: ms =>
    match gen m prompt with
    | some t => some t
    | none => tryModels gen prompt ms

/-- The models whose generation call is actually invoked by the loop: all
failing ones up to and including the first success. -/
def invokedModels (gen : String → String → Option String) (prompt : String) :
    List String → List String
  | [] => []
  | m :: ms =>
    match gen m prompt with
    | some _ => [m]
    | none => m :: invokedModels gen prompt ms

/-- Control flow of a straight-line Python suite: either an earlier
statement returned a value, or control fell through to what follows. -/
inductive PyFlow (α : Type) where
  | ret : α → PyFlow α
  | fall : PyFlow α

/-- Sequencing of suites: a return in the first suite makes the second
unreachable. -/
def PyFlow.seq {α : Type} : PyFlow α → PyFlow α → PyFlow α
  | PyFlow.ret a, _ => PyFlow.ret a
  | PyFlow.fall, k => k

/-- Result of a Python function body over Option-valued returns: falling
off the end of the body returns None. -/
def PyFlow.run : PyFlow (Option String) → Option String
  | PyFlow.ret a => a
  | PyFlow.fall => none

/-- The trailing try/except block of generate_summary (main.py 153-165):
one call on gemini-flash-latest, returning its text on success and None on
exception; both paths return. -/
def deadFallback (gen : String → String → Option String) (prompt : String) :
    PyFlow (Option String) :=
  PyFlow.ret (match gen "gemini-flash-latest" prompt with
    | some t => some t
    | none => none)

/-- The suite after the candidate loop (main.py 150-165): the unconditional
return None, sequenced before the trailing try/except block. -/
def afterLoop (gen : String → String → Option String) (prompt : String) :
    PyFlow (Option String) :=
  PyFlow.seq (PyFlow.ret none) (deadFallback gen prompt)

/-- generate_summary (main.py 101-165): empty input short-circuits to None
before the prompt is built; otherwise the candidate loop runs, and on
fall-through the suite after the loop decides the result. -/
def generate_summary (gen : String → String → Option String)
    (news_list : List String) (date_str : String) : Option String :=
  if news_list.isEmpty then none
  else
    let prompt := buildPrompt date_str news_list
    match tryModels gen prompt candidate_models with
    | some t => some t
    | none => PyFlow.run (afterLoop gen prompt)

/-- Modelled from the spec: generate_summary with the trailing dead block
removed, the two-candidate ordered loop being the sole fallback policy;
exhaustion of the loop returns None. -/
def generate_summary_trimmed (gen : String → String → Option String)
    (news_list : List String) (date_str : String) : Option String :=
  if news_list.isEmpty then none
  else tryModels gen (buildPrompt date_str news_list) candidate_models

/-- Unfolding lemma: the dead tail contributes exactly None on loop
exhaustion. -/
theorem generate_summary_eq_aux (gen : String → String → Option String)
    (news_list : List String) (date_str : String) :
    generate_summary gen news_list date_str =
      generate_summary_trimmed gen news_list date_str := by
  unfold generate_summary generate_summary_trimmed
  cases hni : news_list.isEmpty with
  | true => simp
  | false =>
    simp only [Bool.false_eq_true, if_false]
    cases htry : tryModels gen (buildPrompt date_str news_list) candidate_models with
    | some t => simp
    | none => simp [afterLoop, deadFallback, PyFlow.seq, PyFlow.run]

/-- The loop result is None exactly when every candidate call failed. -/
theorem tryModels_eq_none_iff (gen : String → String → Option String)
    (prompt : String) (ms : List String) :
    tryModels gen prompt ms = none ↔ ∀ m ∈ ms, gen m prompt = none := by
  induction ms with
  | nil => simp [tryModels]
  | cons m ms ih =>
    simp only [tryModels]
    cases hm : gen m prompt with
    | some t => simp [hm]
    | none => simpa [hm] using ih

/-- When the calls on ms1 all fail and the call on m succeeds with t, the
loop over ms1 ++ m :: ms2 returns t. -/
theorem tryModels_first_success (gen : String → String → Option String)
    (prompt : String) (ms1 : List String) (m : String) (ms2 : List String)
    (t : String) (hfail : ∀ x ∈ ms1, gen x prompt = none)
    (hsucc : gen m prompt = some t) :
    tryModels gen prompt (ms1 ++ m :: ms2) = some t := by
  induction ms1 with
  | nil => simp [tryModels, hsucc]
  | cons x ms1 ih =>
    have hx : gen x prompt = none := hfail x (List.mem_cons_self x ms1)
    simp only [List.cons_append, tryModels, hx]
    exact ih (fun y hy => hfail y (List.mem_cons_of_mem x hy))

/-- Under the same hypotheses, exactly ms1 and then m are invoked; no model
of ms2 is. -/
theorem invokedModels_first_success (gen : String → String → Option String)
    (prompt : String) (ms1 : List String) (m : String) (ms2 : List String)
    (t : String) (hfail : ∀ x ∈ ms1, gen x prompt = none)
    (hsucc : gen m prompt = some t) :
    invokedModels gen prompt (ms1 ++ m :: ms2) = ms1 ++ [m] := by
  induction ms1 with
  | nil => simp [invokedModels, hsucc]
  | cons x ms1 ih =>
    have hx : gen x prompt = none := hfail x (List.mem_cons_self x ms1)
    simp only [List.cons_append, invokedModels, hx]
    exact congrArg (List.cons x)
      (ih (fun y hy => hfail y (List.mem_cons_of_mem x hy)))

/-- A successful loop result decomposes the list at the first success. -/
theorem tryModels_some_decomp (gen : String → String → Option String)
    (prompt : String) (ms : List String) (t : String)
    (h : tryModels gen prompt ms = some t) :
    ∃ ms1 m ms2, ms = ms1 ++ m :: ms2 ∧ (∀ x ∈ ms1, gen x prompt = none) ∧
      gen m prompt = some t := by
  induction ms with
  | nil => simp [tryModels] at h
  | cons m ms ih =>
    simp only [tryModels] at h
    cases hm : gen m prompt with
    | some u =>
      rw [hm] at h
      cases h
      exact ⟨[], m, ms, by simp, by simp, hm⟩
    | none =>
      rw [hm] at h
      rcases ih h with ⟨ms1, m2, ms2, hdec, hfail, hsucc⟩
      refine ⟨m :: ms1, m2, ms2, by simp [hdec], ?_, hsucc⟩
      intro x hx
      rcases List.mem_cons.mp hx with rfl | hx2
      · exact hm
      · exact hfail x hx2

/-- A generation oracle on which the first candidate model succeeds. -/
def genProSucceeds : String → String → Option String :=
  fun m _ => if m = "gemini-1.5-pro-002" then some "Report body" else none

/-- C9: the trailing try/except block after the unconditional return None
is dead: generate_summary agrees everywhere with the version that drops it,
so the two-candidate ordered loop is the sole fallback policy. -/
theorem generate_summary_dead_code (gen : String → String → Option String)
    (news_list : List String) (date_str : String) :
    generate_summary gen news_list date_str =
      generate_summary_trimmed gen news_list date_str :=
  generate_summary_eq_aux gen news_list date_str

/-- C4: when the candidate list splits as ms1 ++ m :: ms2 with every call
on ms1 failing and the call on m succeeding with text t, generate_summary
returns t and the invoked models are exactly ms1 then m: nothing of ms2 is
ever called. -/
theorem generate_summary_first_success (gen : String → String → Option String)
    (news_list : List String) (date_str : String)
    (ms1 : List String) (m : String) (ms2 : List String) (t : String)
    (hne : news_list.isEmpty = false)
    (hdec : candidate_models = ms1 ++ m :: ms2)
    (hfail : ∀ x ∈ ms1, gen x (buildPrompt date_str news_list) = none)
    (hsucc : gen m (buildPrompt date_str news_list) = some t) :
    generate_summary gen news_list date_str = some t ∧
    invokedModels gen (buildPrompt date_str news_list) candidate_models =
      ms1 ++ [m] := by
  constructor
  · rw [generate_summary_eq_aux]
    unfold generate_summary_trimmed
    simp only [hne, Bool.false_eq_true, if_false]
    rw [hdec]
    exact tryModels_first_success gen _ ms1 m ms2 t hfail hsucc
  · rw [hdec]
    exact invokedModels_first_success gen _ ms1 m ms2 t hfail hsucc

/-- Witness for C4: the first candidate succeeds, only it is invoked. -/
theorem generate_summary_first_success_witness :
    generate_summary genProSucceeds ["n"] "2025/10/12" = some "Report body" ∧
    invokedModels genProSucceeds (buildPrompt "2025/10/12" ["n"])
      candidate_models = [] ++ ["gemini-1.5-pro-002"] :=
  generate_summary_first_success genProSucceeds ["n"] "2025/10/12"
    [] "gemini-1.5-pro-002" ["gemini-flash-latest"] "Report body"
    (by decide) rfl (by simp) (by decide)

/-- C5: generate_summary returns None exactly when the item list is empty
or every candidate call fails; any returned text is the text of the first
succeeding candidate. -/
theorem generate_summary_none_iff (gen : String → String → Option String)
    (news_list : List String) (date_str : String) :
    (generate_summary gen news_list date_str = none ↔
      (news_list = [] ∨
        ∀ m ∈ candidate_models,
          gen m (buildPrompt date_str news_list) = none)) ∧
    (∀ t, generate_summary gen news_list date_str = some t →
      ∃ ms1 m ms2, candidate_models = ms1 ++ m :: ms2 ∧
        (∀ x ∈ ms1, gen x (buildPrompt date_str news_list) = none) ∧
        gen m (buildPrompt date_str news_list) = some t) := by
  rw [generate_summary_eq_aux]
  cases news_list with
  | nil =>
    constructor
    · simp [generate_summary_trimmed]
    · intro t ht
      simp [generate_summary_trimmed] at ht
  | cons a l =>
    unfold generate_summary_trimmed
    simp only [List.isEmpty_cons, Bool.false_eq_true, if_false]
    constructor
    · rw [tryModels_eq_none_iff]
      constructor
      · exact Or.inr
      · rintro (h1 | h2)
        · cases h1
        · exact h2
    · intro t ht
      exact tryModels_some_decomp gen _ candidate_models t ht

/-- Witness for C5: with every call failing the result is None. -/
theorem generate_summary_none_iff_witness :
    generate_summary (fun _ _ => none) ["n"] "d" = none :=
  ((generate_summary_none_iff (fun _ _ => none) ["n"] "d").1).mpr
    (Or.inr (fun _ _ => rfl))

/-- Python truthiness of an os.getenv result: None and the empty string
are both falsy. -/
def pyTruthyOpt : Option String → Bool
  | none => false
  | some s => !s.isEmpty

/-- Observable module-startup events: exiting with a status code, or
constructing the genai client. -/
inductive StartEv where
  | exited : Nat → StartEv
  | clientInit : StartEv
deriving DecidableEq

/-- Module-level startup (main.py lines 38-49): read the three secrets from
the environment; if not all are truthy, sys.exit(1); otherwise the genai
client is constructed. -/
def module_startup (env : String → Option String) : List StartEv :=
  if pyTruthyOpt (env "GEMINI_API_KEY") &&
      pyTruthyOpt (env "LINE_CHANNEL_ACCESS_TOKEN") &&
      pyTruthyOpt (env "LINE_USER_ID") then
    [StartEv.clientInit]
  else
    [StartEv.exited 1]

/-- C7: if any of the three required secrets is absent from the
environment, startup exits with the non-zero status 1 and the generation
client is never constructed, so no pipeline work or network call happens. -/
theorem module_startup_missing_secret (env : String → Option String)
    (h : env "GEMINI_API_KEY" = none ∨
      env "LINE_CHANNEL_ACCESS_TOKEN" = none ∨ env "LINE_USER_ID" = none) :
    module_startup env = [StartEv.exited 1] ∧ (1 : Nat) ≠ 0 ∧
    StartEv.clientInit ∉ module_startup env := by
  have hfalse : (pyTruthyOpt (env "GEMINI_API_KEY") &&
      pyTruthyOpt (env "LINE_CHANNEL_ACCESS_TOKEN") &&
      pyTruthyOpt (env "LINE_USER_ID")) = false := by
    rcases h with h1 | h2 | h3
    · simp [h1, pyTruthyOpt]
    · simp [h2, pyTruthyOpt]
    · simp [h3, pyTruthyOpt]
  refine ⟨?_, by simp, ?_⟩
  · simp [module_startup, hfalse]
  · simp [module_startup, hfalse]

/-- Witness for C7 on the empty environment. -/
theorem module_startup_missing_secret_witness :
    module_startup (fun _ => none) = [StartEv.exited 1] ∧ (1 : Nat) ≠ 0 ∧
    StartEv.clientInit ∉ module_startup (fun _ => none) :=
  module_startup_missing_secret (fun _ => none) (Or.inl rfl)

/-- send_line_push (main.py lines 167-180): the push oracle either
delivers or raises with a message; the call runs inside try/except, a
raise is logged and swallowed.  The Except layer records whether an
exception escapes the function; the Bool records delivery success. -/
def send_line_push (push : String → Except String Unit)
    (message : String) : Except String Bool :=
  match push message with
  | Except.ok _ => Except.ok true
  | Except.error _ => Except.ok false

/-- C8: for every push oracle and every text, send_line_push returns
normally — it never propagates an exception — and a raising push yields a
normal return recording the failure. -/
theorem send_line_push_never_throws (push : String → Except String Unit)
    (message : String) :
    (∃ b, send_line_push push message = Except.ok b) ∧
    (∀ e, push message = Except.error e →
      send_line_push push message = Except.ok false) := by
  constructor
  · cases hp : push message with
    | ok u => exact ⟨true, by simp [send_line_push, hp]⟩
    | error e => exact ⟨false, by simp [send_line_push, hp]⟩
  · intro e he
    simp [send_line_push, he]

/-- Witness for C8 on a push oracle that always raises. -/
theorem send_line_push_never_throws_witness :
    (∃ b, send_line_push (fun _ => Except.error "boom") "msg" = Except.ok b) ∧
    send_line_push (fun _ => Except.error "boom") "msg" = Except.ok false :=
  ⟨(send_line_push_never_throws (fun _ => Except.error "boom") "msg").1,
   (send_line_push_never_throws (fun _ => Except.error "boom") "msg").2
     "boom" rfl⟩

/-- Observable events of one run of main: the Summarizer being called, the
digest being printed, the digest being pushed, in order. -/
inductive MainEv where
  | summarize : MainEv
  | printed : String → MainEv
  | pushed : String → MainEv
deriving DecidableEq

/-- main (main.py lines 182-196): search with cap 3; an empty result list
ends the run; otherwise summarize; a truthy summary (non-None and
nonempty) is printed and then pushed, anything else ends the run. -/
def main_run (provider : String → List FetchEvent)
    (gen : String → String → Option String) (date_str : String) :
    List MainEv :=
  let news := search_news provider 3
  if news.isEmpty then []
  else
    MainEv.summarize ::
      (match generate_summary gen news date_str with
       | some s => if s.isEmpty then [] else [MainEv.printed s, MainEv.pushed s]
       | none => [])

/-- C6: the run is a linear short-circuit: empty search means neither the
Summarizer nor the Publisher runs; an absent summary means nothing is
printed and nothing is pushed; a present nonempty summary is printed and
then pushed, in that order. -/
theorem main_short_circuit (provider : String → List FetchEvent)
    (gen : String → String → Option String) (date_str : String) :
    (search_news provider 3 = [] → main_run provider gen date_str = []) ∧
    (search_news provider 3 ≠ [] →
      generate_summary gen (search_news provider 3) date_str = none →
      main_run provider gen date_str = [MainEv.summarize]) ∧
    (∀ s, search_news provider 3 ≠ [] →
      generate_summary gen (search_news provider 3) date_str = some s →
      s ≠ "" →
      main_run provider gen date_str =
        [MainEv.summarize, MainEv.printed s, MainEv.pushed s]) := by
  refine ⟨?_, ?_, ?_⟩
  · intro h
    simp [main_run, h]
  · intro hne hnone
    have hni : (search_news provider 3).isEmpty = false := by
      simpa using hne
    simp [main_run, hni, hnone]
  · intro s hne hsome hs
    have hni : (search_news provider 3).isEmpty = false := by
      simpa using hne
    have hsi : s.isEmpty = false := by
      cases hb : s.isEmpty with
      | false => rfl
      | true => exact absurd ((String.isEmpty_iff s).mp hb) hs
    simp [main_run, hni, hsome, hsi]

/-- Witness for C6: a clean search and a succeeding first candidate give
the full print-then-push trace. -/
theorem main_short_circuit_witness :
    main_run provAllGood genProSucceeds "2025/10/12" =
      [MainEv.summarize, MainEv.printed "Report body",
       MainEv.pushed "Report body"] :=
  (main_short_circuit provAllGood genProSucceeds "2025/10/12").2.2
    "Report body" (by decide) (by decide) (by decide)

/-- A generation oracle that succeeds immediately with the empty string. -/
def genEmptyText : String → String → Option String :=
  fun _ _ => some ""

/-- C10: a summary that is the empty string is treated like an absent one:
the digest is neither printed nor pushed. -/
theorem main_empty_summary (provider : String → List FetchEvent)
    (gen : String → String → Option String) (date_str : String)
    (hne : search_news provider 3 ≠ [])
    (hempty : generate_summary gen (search_news provider 3) date_str =
      some "") :
    main_run provider gen date_str = [MainEv.summarize] := by
  have hni : (search_news provider 3).isEmpty = false := by
    simpa using hne
  have h0 : "".isEmpty = true := rfl
  simp [main_run, hni, hempty, h0]

/-- Witness for C10: a succeeding model that produces empty text leads to
no print and no push. -/
theorem main_empty_summary_witness :
    main_run provAllGood genEmptyText "2025/10/12" = [MainEv.summarize] :=
  main_empty_summary provAllGood genEmptyText "2025/10/12"
    (by decide) (by decide)
